import Mathlib

/-!
Verification of the Hive composer core (graph model, mutation operations and
rendering pipeline) against its natural-language specification.

The definitions below are a shallow embedding of the Python source under
src/core/framework/composer/: pydantic models become structures, the event
handlers that mutate the one ComposerState instance become pure functions
returning the post-state together with an optional error condition, and
Python string helpers (strip, split, lower, title, truthiness) are embedded
explicitly.
-/

set_option maxRecDepth 4000

/-- Embedding of Python str.strip (leading and trailing whitespace removed),
written by structural recursion on the character list so that it evaluates
inside the kernel. -/
def pyStrip (s : String) : String :=
  ⟨((s.data.dropWhile Char.isWhitespace).reverse.dropWhile
      Char.isWhitespace).reverse⟩

/-- Embedding of Python str.lower for the ASCII range used by the composer. -/
def pyLower (s : String) : String := ⟨s.data.map Char.toLower⟩

/-- Embedding of Python single-character str.replace, the only form the
composer uses (underscore to space and space to underscore). -/
def pyReplaceChar (pat repl : Char) (s : String) : String :=
  ⟨s.data.map (fun c => if c = pat then repl else c)⟩

/-- Helper for comma splitting: cut the character list at every comma. -/
def pySplitCommaAux : List Char → List Char → List String
  | [], acc => [⟨acc.reverse⟩]
  | c :: rest, acc =>
    if c = ',' then ⟨acc.reverse⟩ :: pySplitCommaAux rest []
    else pySplitCommaAux rest (c :: acc)

/-- Helper for pyTitle: walk the characters remembering whether the previous
character was alphabetic. -/
def pyTitleAux : List Char → Bool → List Char
  | [], _ => []
  | c :: rest, prevAlpha =>
    (if c.isAlpha then (if prevAlpha then c.toLower else c.toUpper) else c)
      :: pyTitleAux rest c.isAlpha

/-- Embedding of Python str.title: the first letter of every alphabetic run is
upper-cased, the rest lower-cased. -/
def pyTitle (s : String) : String := ⟨pyTitleAux s.data false⟩

/-- Embedding of the comma-splitting idiom used throughout the composer:
[x.strip() for x in text.split(",") if x.strip()]. -/
def pySplitCommaStrip (s : String) : List String :=
  ((pySplitCommaAux s.data []).map pyStrip).filter (fun t => t != "")

/-- Python truthiness of an optional string: None and the empty string are
falsy, every other value is truthy. -/
def pyTruthyOptStr : Option String → Bool
  | none => false
  | some s => s != ""

/-- Node definition for the agent graph (state.py, class NodeData). -/
structure NodeData where
  id : String
  name : String
  description : Option String := none
  system_prompt : String := "You are a helpful assistant."
  tools : List String := []
  node_type : String := "event_loop"
  client_facing : Bool := false
  input_keys : List String := []
  output_keys : List String := []
deriving Repr, DecidableEq

/-- The three edge conditions (state.py, EdgeData.condition literal). -/
inductive EdgeCondition where
  | always
  | on_success
  | on_failure
deriving Repr, DecidableEq

/-- An edge between nodes (state.py, class EdgeData). -/
structure EdgeData where
  source : String
  target : String
  condition : EdgeCondition := .on_success
deriving Repr, DecidableEq

/-- Agent goal definition (state.py, class GoalData). -/
structure GoalData where
  id : String
  name : String
  description : String
  success_criteria : List String := []
  constraints : List String := []
deriving Repr, DecidableEq

/-- Complete state of the agent being composed (state.py, class ComposerState).
The output path is kept as a plain string. -/
structure ComposerState where
  agent_name : String := ""
  agent_description : String := ""
  output_path : Option String := none
  goal : Option GoalData := none
  nodes : List NodeData := []
  edges : List EdgeData := []
  entry_node : Option String := none
  terminal_nodes : List String := []
  default_model : String := "gpt-4o-mini"
  max_tokens : Nat := 30000
  selected_tools : List String := []
deriving Repr, DecidableEq

/-- ComposerState.is_complete (state.py lines 62-69): the Python expression
bool(self.agent_name and self.goal and self.nodes and self.entry_node),
where each conjunct is Python truthiness. -/
def ComposerState.is_complete (s : ComposerState) : Bool :=
  s.agent_name != "" && s.goal.isSome && !s.nodes.isEmpty
    && pyTruthyOptStr s.entry_node

/-- ComposerState.get_node_by_id (state.py lines 71-76): first node whose id
matches, or None. -/
def ComposerState.get_node_by_id (s : ComposerState) (node_id : String) :
    Option NodeData :=
  s.nodes.find? (fun n => n.id == node_id)

/-- A sample goal used in concrete instances. -/
def sampleGoal : GoalData := { id := "g", name := "G", description := "" }

/-- A sample node used in concrete instances. -/
def sampleNodeA : NodeData := { id := "a", name := "A" }

/-- A state whose only defect is an entry-node identifier set to the empty
string. -/
def emptyEntryState : ComposerState :=
  { agent_name := "x", goal := some sampleGoal, nodes := [sampleNodeA],
    entry_node := some "" }

/-- C1 (counterexample): a state whose agent name is non-empty, whose goal is
set, whose node list is non-empty and whose entry-node identifier is set (to
the empty string) on which is_complete still returns false, because the
source tests Python truthiness of the entry-node value and the empty string
is falsy. -/
theorem isComplete_claim_counterexample :
    emptyEntryState.agent_name ≠ ""
    ∧ emptyEntryState.goal.isSome = true
    ∧ emptyEntryState.nodes ≠ []
    ∧ emptyEntryState.entry_node.isSome = true
    ∧ emptyEntryState.is_complete = false := by
  refine ⟨by decide, rfl, by decide, rfl, rfl⟩

/-- C1 (amended): is_complete returns true iff the agent name is non-empty,
a goal is set, the node list is non-empty, and the entry-node identifier is
set to a non-empty string. -/
theorem isComplete_characterization (s : ComposerState) :
    s.is_complete = true ↔
      (s.agent_name ≠ "" ∧ s.goal.isSome = true ∧ s.nodes ≠ []
        ∧ ∃ e, s.entry_node = some e ∧ e ≠ "") := by
  unfold ComposerState.is_complete
  cases h : s.entry_node with
  | none =>
    simp [pyTruthyOptStr]
  | some e =>
    simp [pyTruthyOptStr, Bool.and_eq_true, bne_iff_ne, List.isEmpty_iff,
      and_assoc]

/-- Error conditions raised by the sanctioned mutation operations. -/
inductive MutationError where
  | duplicateIdentifier
  | unknownEndpoint
  | emptyInput
deriving Repr, DecidableEq

/-- ComposerApp.action_new_node handler (app.py lines 251-270), applied to the
node returned by the editor modal: on a duplicate identifier the state is left
untouched and the duplicate condition is reported; otherwise the node is
appended, and when it is the first node both the entry node and the terminal
list are set to its identifier. -/
def actionNewNode (s : ComposerState) (result : NodeData) :
    ComposerState × Option MutationError :=
  if ∃ n ∈ s.nodes, n.id = result.id then
    (s, some .duplicateIdentifier)
  else
    let nodes1 := s.nodes ++ [result]
    if nodes1.length = 1 then
      ({ s with nodes := nodes1, entry_node := some result.id,
                terminal_nodes := [result.id] }, none)
    else
      ({ s with nodes := nodes1 }, none)

/-- NodeEditorScreen add-node handler (screens.py lines 288-329): the four form
fields are stripped, an empty identifier or a duplicate identifier aborts
without mutation, otherwise a node is built (name defaulting to the titled
identifier, tools parsed from the comma-separated field) and appended; when it
is the first node only the entry node is set. -/
def screenAddNode (s : ComposerState)
    (idIn nameIn promptIn toolsIn : String) :
    ComposerState × Option MutationError :=
  let node_id := pyStrip idIn
  let node_name := pyStrip nameIn
  let prompt := pyStrip promptIn
  let tools_text := pyStrip toolsIn
  if node_id = "" then
    (s, some .emptyInput)
  else if ∃ n ∈ s.nodes, n.id = node_id then
    (s, some .duplicateIdentifier)
  else
    let node : NodeData :=
      { id := node_id,
        name := if node_name = "" then pyTitle (pyReplaceChar '_' ' ' node_id)
                else node_name,
        system_prompt := prompt,
        tools := pySplitCommaStrip tools_text }
    let nodes1 := s.nodes ++ [node]
    if nodes1.length = 1 then
      ({ s with nodes := nodes1, entry_node := some node_id }, none)
    else
      ({ s with nodes := nodes1 }, none)

/-- NodeEditorModal save handler (modals.py lines 150-172): requires a
non-empty identifier and name, builds the updated node from the form fields,
carries the prior tool list forward, and leaves every field that is not on the
form at its NodeData default. -/
def modalSaveNode (prior : NodeData)
    (idVal nameVal promptVal descVal : String) : Option NodeData :=
  if idVal = "" ∨ nameVal = "" then
    none
  else
    some { id := idVal, name := nameVal, system_prompt := promptVal,
           description := if descVal = "" then none else some descVal,
           tools := prior.tools }

/-- Index of the first node with the given identifier, mirroring the
next-then-index scan of the edit-node handler. -/
def firstIdxById (selId : String) : List NodeData → Option Nat
  | [] => none
  | n :: rest =>
    if n.id = selId then some 0
    else (firstIdxById selId rest).map (fun j => j + 1)

/-- ComposerApp.action_edit_node handler (app.py lines 272-294): the first node
whose identifier matches the selection is replaced in place by the modal
result; when no node matches the state is unchanged. -/
def editNode (s : ComposerState) (selId : String) (result : NodeData) :
    ComposerState :=
  match firstIdxById selId s.nodes with
  | none => s
  | some idx => { s with nodes := s.nodes.set idx result }

/-- ComposerApp.action_delete_node handler (app.py lines 296-315): removes
every node whose identifier equals the selection and every edge whose source
or target equals it; no other field is touched. -/
def deleteNode (s : ComposerState) (selId : String) : ComposerState :=
  { s with
    nodes := s.nodes.filter (fun n => n.id != selId),
    edges := s.edges.filter (fun e => e.source != selId && e.target != selId) }

/-- EdgeWiringScreen add-edge handler (screens.py lines 420-449): source and
target are stripped; an empty field aborts, an endpoint naming no node aborts
with the unknown-endpoint condition, otherwise the edge (with the default
on-success condition) is appended with no duplicate check. -/
def screenAddEdge (s : ComposerState) (sourceIn targetIn : String) :
    ComposerState × Option MutationError :=
  let source := pyStrip sourceIn
  let target := pyStrip targetIn
  if source = "" ∨ target = "" then
    (s, some .emptyInput)
  else
    let node_ids := s.nodes.map (fun n => n.id)
    if source ∉ node_ids then
      (s, some .unknownEndpoint)
    else if target ∉ node_ids then
      (s, some .unknownEndpoint)
    else
      ({ s with edges := s.edges ++ [{ source := source, target := target }] },
       none)

/-- GoalEditorModal save handler (modals.py lines 247-269): requires a
non-empty name; the goal identifier is derived from the name by lower-casing
and replacing spaces with underscores, and the criteria field is parsed as a
comma-separated list. -/
def modalSaveGoal (nameVal descVal criteriaVal : String) : Option GoalData :=
  if nameVal = "" then
    none
  else
    some { id := pyReplaceChar ' ' '_' (pyLower nameVal),
           name := nameVal,
           description := descVal,
           success_criteria := pySplitCommaStrip criteriaVal }

/-- ComposerApp.action_edit_goal handler (app.py lines 317-324): the goal
returned by the modal replaces whatever goal the state held. -/
def editGoal (s : ComposerState) (g : GoalData) : ComposerState :=
  { s with goal := some g }

/-- GoalDefinitionScreen next handler (screens.py lines 172-195): the goal
identifier is supplied explicitly; an empty identifier aborts, otherwise a
goal (name derived by titling the identifier) replaces the current goal. -/
def screenSaveGoal (s : ComposerState) (idIn descIn criteriaIn : String) :
    ComposerState × Option MutationError :=
  let goal_id := pyStrip idIn
  let goal_desc := pyStrip descIn
  let criteria_text := pyStrip criteriaIn
  if goal_id = "" then
    (s, some .emptyInput)
  else
    let g : GoalData :=
      { id := goal_id,
        name := pyTitle (pyReplaceChar '_' ' ' goal_id),
        description := goal_desc,
        success_criteria := pySplitCommaStrip criteria_text }
    ({ s with goal := some g }, none)

/-- The freshly created composer state (all fields at their defaults). -/
def emptyState : ComposerState := {}

/-- Appending one element yields a singleton exactly when the original list
was empty. -/
theorem append_singleton_length_one {a : Type} (l : List a) (x : a) :
    ((l ++ [x]).length = 1) ↔ l = [] := by
  cases l with
  | nil => simp
  | cons y ys => simp

/-- C2 (counterexample): adding a first node through the wizard screen
(screens.py lines 288-329) succeeds and sets the entry node, but leaves the
terminal-node list empty instead of setting it to the identifier of the new
node, so the claim fails for this sanctioned add-node operation. -/
theorem addNode_terminal_claim_counterexample :
    (screenAddNode emptyState "a" "A" "p" "").2 = none
    ∧ emptyState.nodes = []
    ∧ (screenAddNode emptyState "a" "A" "p" "").1.entry_node = some "a"
    ∧ (screenAddNode emptyState "a" "A" "p" "").1.terminal_nodes = []
    ∧ ([] : List String) ≠ ["a"] := by
  refine ⟨by decide, rfl, by decide, by decide, by decide⟩

/-- C2 (amended): the modal-based add-node operation (app.py) sets both the
entry node and the terminal-node list to the identifier of the first node
added and changes neither on subsequent adds; the wizard-screen add-node
operation (screens.py) never touches the terminal-node list, sets the entry
node to the identifier of the first node added, and changes it on no
subsequent add. -/
theorem addNode_first_node_entry_spec :
    (∀ (s : ComposerState) (n : NodeData) (s1 : ComposerState),
      actionNewNode s n = (s1, none) →
      (s.nodes = [] → s1.entry_node = some n.id ∧ s1.terminal_nodes = [n.id])
      ∧ (s.nodes ≠ [] → s1.entry_node = s.entry_node
          ∧ s1.terminal_nodes = s.terminal_nodes))
    ∧ (∀ (s : ComposerState) (idIn nameIn promptIn toolsIn : String)
        (s1 : ComposerState),
      screenAddNode s idIn nameIn promptIn toolsIn = (s1, none) →
      s1.terminal_nodes = s.terminal_nodes
      ∧ (s.nodes = [] → s1.entry_node = some (pyStrip idIn))
      ∧ (s.nodes ≠ [] → s1.entry_node = s.entry_node)) := by
  constructor
  · intro s n s1 h
    by_cases hdup : ∃ m ∈ s.nodes, m.id = n.id
    · simp [actionNewNode, hdup] at h
    · by_cases hnil : s.nodes = []
      · simp [actionNewNode, hdup, hnil] at h
        exact ⟨fun _ => by rw [← h]; exact ⟨rfl, rfl⟩,
          fun hne => absurd hnil hne⟩
      · simp [actionNewNode, hdup, append_singleton_length_one, hnil] at h
        exact ⟨fun hn => absurd hn hnil, fun _ => by rw [← h]; exact ⟨rfl, rfl⟩⟩
  · intro s idIn nameIn promptIn toolsIn s1 h
    by_cases hid : pyStrip idIn = ""
    · simp [screenAddNode, hid] at h
    · by_cases hdup : ∃ m ∈ s.nodes, m.id = pyStrip idIn
      · simp [screenAddNode, hid, hdup] at h
      · by_cases hnil : s.nodes = []
        · simp [screenAddNode, hid, hdup, hnil] at h
          rw [← h]
          exact ⟨rfl, fun _ => rfl, fun hne => absurd hnil hne⟩
        · simp [screenAddNode, hid, hdup, append_singleton_length_one,
            hnil] at h
          rw [← h]
          exact ⟨rfl, fun hn => absurd hn hnil, fun _ => rfl⟩

/-- C2 (witness): the amended theorem applied to concrete first adds on the
empty state through each operation. -/
theorem addNode_first_node_entry_spec_witness :
    ((actionNewNode emptyState sampleNodeA).1.entry_node = some "a"
      ∧ (actionNewNode emptyState sampleNodeA).1.terminal_nodes = ["a"])
    ∧ (screenAddNode emptyState "a" "A" "p" "").1.terminal_nodes
        = emptyState.terminal_nodes := by
  constructor
  · exact (addNode_first_node_entry_spec.1 emptyState sampleNodeA
      (actionNewNode emptyState sampleNodeA).1 (by decide)).1 rfl
  · exact (addNode_first_node_entry_spec.2 emptyState "a" "A" "p" ""
      (screenAddNode emptyState "a" "A" "p" "").1 (by decide)).1

/-- C3: for every graph state and add-node request (through either sanctioned
operation, with a non-blank identifier for the screen form), a request whose
identifier matches an existing node fails with the duplicate-identifier
condition and leaves the whole state untouched; otherwise the new node is
appended at the end of the node list. -/
theorem addNode_duplicate_spec :
    (∀ (s : ComposerState) (n : NodeData),
      ((∃ m ∈ s.nodes, m.id = n.id) →
        actionNewNode s n = (s, some .duplicateIdentifier))
      ∧ ((¬ ∃ m ∈ s.nodes, m.id = n.id) →
        (actionNewNode s n).2 = none
        ∧ (actionNewNode s n).1.nodes = s.nodes ++ [n]))
    ∧ (∀ (s : ComposerState) (idIn nameIn promptIn toolsIn : String),
      pyStrip idIn ≠ "" →
      ((∃ m ∈ s.nodes, m.id = pyStrip idIn) →
        screenAddNode s idIn nameIn promptIn toolsIn
          = (s, some .duplicateIdentifier))
      ∧ ((¬ ∃ m ∈ s.nodes, m.id = pyStrip idIn) →
        (screenAddNode s idIn nameIn promptIn toolsIn).2 = none
        ∧ ∃ node : NodeData, node.id = pyStrip idIn
            ∧ (screenAddNode s idIn nameIn promptIn toolsIn).1.nodes
                = s.nodes ++ [node])) := by
  constructor
  · intro s n
    refine ⟨fun hdup => by simp [actionNewNode, hdup], fun hdup => ?_⟩
    by_cases hnil : s.nodes = []
    · simp [actionNewNode, hdup, hnil]
    · simp [actionNewNode, hdup, append_singleton_length_one, hnil]
  · intro s idIn nameIn promptIn toolsIn hid
    refine ⟨fun hdup => by simp [screenAddNode, hid, hdup], fun hdup => ?_⟩
    by_cases hnil : s.nodes = []
    · simp [screenAddNode, hid, hdup, hnil]
    · simp [screenAddNode, hid, hdup, append_singleton_length_one, hnil]

/-- A one-node state used in concrete instances. -/
def oneNodeState : ComposerState := { nodes := [sampleNodeA] }

/-- C3 (witness): the duplicate and append cases of both add-node operations
at concrete states. -/
theorem addNode_duplicate_spec_witness :
    actionNewNode oneNodeState sampleNodeA
      = (oneNodeState, some .duplicateIdentifier)
    ∧ (actionNewNode emptyState sampleNodeA).1.nodes = [sampleNodeA]
    ∧ screenAddNode oneNodeState "a" "" "" ""
      = (oneNodeState, some .duplicateIdentifier) := by
  refine ⟨?_, ?_, ?_⟩
  · exact (addNode_duplicate_spec.1 oneNodeState sampleNodeA).1
      ⟨sampleNodeA, by decide, rfl⟩
  · have h := (addNode_duplicate_spec.1 emptyState sampleNodeA).2 (by decide)
    simpa using h.2
  · exact (addNode_duplicate_spec.2 oneNodeState "a" "" "" "" (by decide)).1
      ⟨sampleNodeA, by decide, by decide⟩

/-- C4: for every graph state and add-edge request with non-blank endpoints,
the request fails with the unknown-endpoint condition exactly when the source
or the target names no node, leaving the state untouched; when both endpoints
name nodes the edge (with the default on-success condition) is appended
unconditionally, with no duplicate-edge check. -/
theorem addEdge_endpoint_spec :
    ∀ (s : ComposerState) (sourceIn targetIn : String),
      pyStrip sourceIn ≠ "" → pyStrip targetIn ≠ "" →
      ((pyStrip sourceIn ∉ s.nodes.map (fun n => n.id)
          ∨ pyStrip targetIn ∉ s.nodes.map (fun n => n.id)) →
        screenAddEdge s sourceIn targetIn = (s, some .unknownEndpoint))
      ∧ (pyStrip sourceIn ∈ s.nodes.map (fun n => n.id) →
          pyStrip targetIn ∈ s.nodes.map (fun n => n.id) →
        screenAddEdge s sourceIn targetIn
          = ({ s with edges := s.edges ++
              [{ source := pyStrip sourceIn, target := pyStrip targetIn,
                 condition := .on_success }] }, none)) := by
  intro s sourceIn targetIn hs ht
  constructor
  · intro hor
    by_cases hsrc : pyStrip sourceIn ∈ s.nodes.map (fun n => n.id)
    · have htgt : pyStrip targetIn ∉ s.nodes.map (fun n => n.id) := by
        rcases hor with h | h
        · exact absurd hsrc h
        · exact h
      simp [screenAddEdge, hs, ht, hsrc, htgt]
    · simp [screenAddEdge, hs, ht, hsrc]
  · intro hsm htm
    simp [screenAddEdge, hs, ht, hsm, htm]

/-- A second sample node. -/
def sampleNodeB : NodeData := { id := "b", name := "B" }

/-- A sample edge from a to b. -/
def edgeAB : EdgeData := { source := "a", target := "b" }

/-- A state with two nodes and one existing a-to-b edge. -/
def twoNodeState : ComposerState :=
  { nodes := [sampleNodeA, sampleNodeB], edges := [edgeAB] }

/-- C4 (witness): re-adding the already present a-to-b edge appends a second
identical copy, and an edge to an unknown node fails without mutation. -/
theorem addEdge_endpoint_spec_witness :
    screenAddEdge twoNodeState "a" "b"
      = ({ twoNodeState with edges := [edgeAB, edgeAB] }, none)
    ∧ edgeAB ∈ twoNodeState.edges
    ∧ screenAddEdge twoNodeState "a" "zzz"
      = (twoNodeState, some .unknownEndpoint) := by
  refine ⟨?_, by decide, ?_⟩
  · have h := (addEdge_endpoint_spec twoNodeState "a" "b"
      (by decide) (by decide)).2 (by decide) (by decide)
    exact h.trans (by decide)
  · exact (addEdge_endpoint_spec twoNodeState "a" "zzz"
      (by decide) (by decide)).1 (Or.inr (by decide))

/-- The three-node example graph of the specification: nodes A, B, C with
edges A to B and B to C; entry and terminal fields deliberately reference B. -/
def abcState : ComposerState :=
  { nodes := [{ id := "A", name := "A" }, { id := "B", name := "B" },
              { id := "C", name := "C" }],
    edges := [{ source := "A", target := "B" },
              { source := "B", target := "C" }],
    entry_node := some "B", terminal_nodes := ["B"] }

/-- C5: deleting a node removes exactly the nodes with the selected identifier
and exactly the edges touching it, preserves the relative order of the rest,
and leaves every other field (including a dangling entry node and terminal
list) unchanged; in particular deleting B from the A,B,C example yields nodes
A,C and no edges. -/
theorem deleteNode_spec :
    (∀ (s : ComposerState) (selId : String),
      (deleteNode s selId).nodes.Sublist s.nodes
      ∧ (∀ n : NodeData, n ∈ (deleteNode s selId).nodes
          ↔ n ∈ s.nodes ∧ n.id ≠ selId)
      ∧ (deleteNode s selId).edges.Sublist s.edges
      ∧ (∀ e : EdgeData, e ∈ (deleteNode s selId).edges
          ↔ e ∈ s.edges ∧ e.source ≠ selId ∧ e.target ≠ selId)
      ∧ (deleteNode s selId).entry_node = s.entry_node
      ∧ (deleteNode s selId).terminal_nodes = s.terminal_nodes
      ∧ (deleteNode s selId).goal = s.goal
      ∧ (deleteNode s selId).agent_name = s.agent_name
      ∧ (deleteNode s selId).agent_description = s.agent_description
      ∧ (deleteNode s selId).output_path = s.output_path
      ∧ (deleteNode s selId).default_model = s.default_model
      ∧ (deleteNode s selId).max_tokens = s.max_tokens
      ∧ (deleteNode s selId).selected_tools = s.selected_tools)
    ∧ ((deleteNode abcState "B").nodes.map (fun n => n.id) = ["A", "C"]
      ∧ (deleteNode abcState "B").edges = []
      ∧ (deleteNode abcState "B").entry_node = some "B"
      ∧ (deleteNode abcState "B").terminal_nodes = ["B"]) := by
  constructor
  · intro s selId
    refine ⟨List.filter_sublist _, fun n => ?_, List.filter_sublist _,
      fun e => ?_, rfl, rfl, rfl, rfl, rfl, rfl, rfl, rfl, rfl⟩
    · simp [deleteNode, List.mem_filter, bne_iff_ne]
    · simp [deleteNode, List.mem_filter, bne_iff_ne, Bool.and_eq_true]
  · exact ⟨by decide, by decide, by decide, by decide⟩

/-- The index found by firstIdxById is within the list. -/
theorem firstIdxById_lt_length {selId : String} :
    ∀ {l : List NodeData} {i : Nat},
      firstIdxById selId l = some i → i < l.length := by
  intro l
  induction l with
  | nil => intro i h; simp [firstIdxById] at h
  | cons n rest ih =>
    intro i h
    by_cases hn : n.id = selId
    · simp [firstIdxById, hn] at h
      simp only [List.length_cons]
      omega
    · simp [firstIdxById, hn] at h
      obtain ⟨j, hj, hji⟩ := h
      have := ih hj
      simp
      omega

/-- C6: updating an existing node replaces it at its existing position,
preserving the list length and every other position, and the node saved by
the editor modal carries the prior tool list forward (the edit form never
supplies a new one). -/
theorem editNode_replace_spec :
    (∀ (s : ComposerState) (selId : String) (result : NodeData) (i : Nat),
      firstIdxById selId s.nodes = some i →
      (editNode s selId result).nodes = s.nodes.set i result
      ∧ (editNode s selId result).nodes.length = s.nodes.length
      ∧ (editNode s selId result).nodes[i]? = some result
      ∧ (∀ j : Nat, j ≠ i →
          (editNode s selId result).nodes[j]? = s.nodes[j]?))
    ∧ (∀ (prior : NodeData) (idVal nameVal promptVal descVal : String)
        (u : NodeData),
      modalSaveNode prior idVal nameVal promptVal descVal = some u →
      u.tools = prior.tools) := by
  constructor
  · intro s selId result i h
    have hlt := firstIdxById_lt_length h
    have hnodes : (editNode s selId result).nodes = s.nodes.set i result := by
      simp [editNode, h]
    refine ⟨hnodes, ?_, ?_, ?_⟩
    · rw [hnodes, List.length_set]
    · rw [hnodes, List.getElem?_set_self]
      exact hlt
    · intro j hj
      rw [hnodes, List.getElem?_set_ne]
      omega
  · intro prior idVal nameVal promptVal descVal u h
    by_cases hempty : idVal = "" ∨ nameVal = ""
    · simp [modalSaveNode, hempty] at h
    · simp [modalSaveNode, hempty] at h
      rw [← h]

/-- A node with every default overridden, used to exercise the edit flow. -/
def priorNode : NodeData :=
  { id := "n1", name := "Old", description := some "old purpose",
    system_prompt := "old prompt", tools := ["t1", "t2"],
    node_type := "custom", client_facing := true,
    input_keys := ["k"], output_keys := ["o"] }

/-- The node the modal produces when priorNode is edited to the name New with
prompt p and an empty description field. -/
def priorNodeSaved : NodeData :=
  { id := "n1", name := "New", system_prompt := "p", description := none,
    tools := ["t1", "t2"] }

/-- A state holding priorNode between two other nodes. -/
def threeNodeState : ComposerState :=
  { nodes := [sampleNodeA, priorNode, sampleNodeB], entry_node := some "a" }

/-- C6 (witness): replacing the middle node of a three-node state in place and
carrying the tool list forward, at concrete inputs. -/
theorem editNode_replace_spec_witness :
    (editNode threeNodeState "n1" priorNodeSaved).nodes
      = [sampleNodeA, priorNodeSaved, sampleNodeB]
    ∧ (editNode threeNodeState "n1" priorNodeSaved).nodes.length = 3
    ∧ priorNodeSaved.tools = priorNode.tools := by
  have h := editNode_replace_spec.1 threeNodeState "n1" priorNodeSaved 1
    (by decide)
  refine ⟨h.1.trans (by decide), h.2.1.trans (by decide), ?_⟩
  exact editNode_replace_spec.2 priorNode "n1" "New" "p" "" priorNodeSaved
    (by decide)

/-- C7: a goal saved through the goal-editor modal (which has no identifier
field) gets its identifier derived from its name by lower-casing and replacing
each space with an underscore; saving a goal through either path replaces the
current goal outright, so the state holds at most one goal. -/
theorem goal_save_spec :
    (∀ (nameVal descVal criteriaVal : String) (g : GoalData),
      modalSaveGoal nameVal descVal criteriaVal = some g →
      g.id = pyReplaceChar ' ' '_' (pyLower nameVal) ∧ g.name = nameVal)
    ∧ (∀ (s : ComposerState) (g : GoalData), (editGoal s g).goal = some g)
    ∧ (∀ (s : ComposerState) (idIn descIn criteriaIn : String)
        (s1 : ComposerState),
      screenSaveGoal s idIn descIn criteriaIn = (s1, none) →
      ∃ g : GoalData, s1.goal = some g ∧ g.id = pyStrip idIn) := by
  refine ⟨?_, fun s g => rfl, ?_⟩
  · intro nameVal descVal criteriaVal g h
    by_cases hname : nameVal = ""
    · simp [modalSaveGoal, hname] at h
    · simp [modalSaveGoal, hname] at h
      rw [← h]
      exact ⟨rfl, rfl⟩
  · intro s idIn descIn criteriaIn s1 h
    by_cases hid : pyStrip idIn = ""
    · simp [screenSaveGoal, hid] at h
    · simp [screenSaveGoal, hid] at h
      rw [← h]
      exact ⟨_, rfl, rfl⟩

/-- The goal produced by saving the modal with name My Goal, description d and
criteria field c. -/
def myGoalSaved : GoalData :=
  { id := "my_goal", name := "My Goal", description := "d",
    success_criteria := ["c"] }

/-- C7 (witness): the derived identifier and the replacement behaviour at
concrete inputs. -/
theorem goal_save_spec_witness :
    myGoalSaved.id = pyReplaceChar ' ' '_' (pyLower "My Goal")
    ∧ (editGoal emptyEntryState sampleGoal).goal = some sampleGoal := by
  refine ⟨?_, goal_save_spec.2.1 emptyEntryState sampleGoal⟩
  exact (goal_save_spec.1 "My Goal" "d" "c" myGoalSaved (by decide)).1

/-- C10: saving an edit of an existing node through the modal resets every
field not on the form to its NodeData default (node_type event_loop,
client_facing false, empty input and output key lists); only the identifier,
name, prompt, description and the carried-forward tool list survive. -/
theorem editNode_resets_defaults :
    ∀ (prior : NodeData) (nameVal promptVal descVal : String) (u : NodeData),
      modalSaveNode prior prior.id nameVal promptVal descVal = some u →
      u.id = prior.id ∧ u.name = nameVal ∧ u.system_prompt = promptVal
      ∧ u.description = (if descVal = "" then none else some descVal)
      ∧ u.tools = prior.tools
      ∧ u.node_type = "event_loop" ∧ u.client_facing = false
      ∧ u.input_keys = [] ∧ u.output_keys = [] := by
  intro prior nameVal promptVal descVal u h
  by_cases hempty : prior.id = "" ∨ nameVal = ""
  · simp [modalSaveNode, hempty] at h
  · simp [modalSaveNode, hempty] at h
    rw [← h]
    exact ⟨rfl, rfl, rfl, rfl, rfl, rfl, rfl, rfl, rfl⟩

/-- C10 (witness): editing priorNode (which overrides every default) yields a
node whose off-form fields are back at their defaults. -/
theorem editNode_resets_defaults_witness :
    priorNodeSaved.node_type = "event_loop"
    ∧ priorNodeSaved.client_facing = false
    ∧ priorNodeSaved.input_keys = []
    ∧ priorNodeSaved.output_keys = []
    ∧ priorNodeSaved.tools = priorNode.tools
    ∧ priorNode.node_type = "custom"
    ∧ priorNode.client_facing = true := by
  have h := editNode_resets_defaults priorNode "New" "p" "" priorNodeSaved
    (by decide)
  exact ⟨h.2.2.2.2.2.1, h.2.2.2.2.2.2.1, h.2.2.2.2.2.2.2.1,
    h.2.2.2.2.2.2.2.2, h.2.2.2.2.1, rfl, rfl⟩

/-- The template context built by CodeGenerator.generate (generator.py lines
29-41): scalar agent fields, the goal (absent rendered as the empty mapping),
the ordered node and edge lists, entry and terminal identifiers, generation
parameters and the fixed relative tool path. -/
structure TemplateContext where
  agent_name : String
  agent_description : String
  goal : Option GoalData
  nodes : List NodeData
  edges : List EdgeData
  entry_node : Option String
  terminal_nodes : List String
  default_model : String
  max_tokens : Nat
  selected_tools : List String
  tool_path : String
deriving Repr, DecidableEq

/-- Flattening of the composer state into the template context
(generator.py lines 29-41). -/
def buildContext (s : ComposerState) : TemplateContext :=
  { agent_name := s.agent_name, agent_description := s.agent_description,
    goal := s.goal, nodes := s.nodes, edges := s.edges,
    entry_node := s.entry_node, terminal_nodes := s.terminal_nodes,
    default_model := s.default_model, max_tokens := s.max_tokens,
    selected_tools := s.selected_tools, tool_path := "../../tools" }

/-- Modelled from the spec: the pre-authored Jinja template files of the
composer (its templates directory) are not part of the source tree, so
template rendering is modelled, per section 4.4 of the specification, as an
arbitrary total function from template name and parameter context to output
text; every theorem below holds for every such function. -/
def RenderFun : Type := String → TemplateContext → String

/-- The files written by CodeGenerator.generate (generator.py lines 44-56),
as pairs of a path relative to the output location and the rendered content:
the five core files always, plus the tool manifest exactly when at least one
tool is selected. -/
def generateFiles (render : RenderFun) (s : ComposerState) :
    List (String × String) :=
  let ctx := buildContext s
  [("__init__.py", render "__init__.py.j2" ctx),
   ("__main__.py", render "__main__.py.j2" ctx),
   ("agent.py", render "agent.py.j2" ctx),
   ("config.py", render "config.py.j2" ctx),
   ("nodes/__init__.py", render "nodes.py.j2" ctx)]
  ++ (if s.selected_tools = [] then []
      else [("mcp_servers.json", render "mcp_servers.json.j2" ctx)])

/-- A filesystem entry: a directory or a file with its content. -/
inductive FsEntry where
  | dir
  | file (content : String)
deriving Repr, DecidableEq

/-- The entries CodeGenerator.generate creates at the output location, in
the order the source creates them: the nodes subdirectory (made with the
idempotent exist-ok flag) followed by the written files. -/
def generateEntries (render : RenderFun) (s : ComposerState) :
    List (String × FsEntry) :=
  ("nodes", .dir) :: (generateFiles render s).map (fun pc => (pc.1, .file pc.2))

/-- A filesystem, as a total map from path to optional entry. -/
abbrev Fs : Type := String → Option FsEntry

/-- Apply a sequence of path updates in order; a later update to the same
path silently overwrites an earlier one, and updating an occupied path
overwrites whatever was there (the blind-overwrite policy). -/
def applyUpdates : List (String × FsEntry) → Fs → Fs
  | [], fs => fs
  | u :: rest, fs =>
    applyUpdates rest (fun q => if q = u.1 then some u.2 else fs q)

/-- The last entry a sequence of updates assigns to a path, if any. -/
def lastVal : List (String × FsEntry) → String → Option FsEntry
  | [], _ => none
  | u :: rest, q =>
    match lastVal rest q with
    | some v => some v
    | none => if q = u.1 then some u.2 else none

/-- A path ends up holding the last value written to it, and an untouched
path keeps its prior entry. -/
theorem applyUpdates_apply (us : List (String × FsEntry)) (fs : Fs)
    (q : String) :
    applyUpdates us fs q
      = match lastVal us q with
        | some v => some v
        | none => fs q := by
  induction us generalizing fs with
  | nil => rfl
  | cons u rest ih =>
    show applyUpdates rest _ q = _
    rw [ih]
    simp only [lastVal]
    cases lastVal rest q with
    | some v => rfl
    | none =>
      by_cases hq : q = u.1 <;> simp [hq]

/-- One run of CodeGenerator.generate (generator.py lines 22-56) against the
filesystem: make the output directory and the nodes subdirectory (both with
the idempotent exist-ok flag), then write each rendered file, silently
overwriting whatever exists at its path. -/
def runGenerate (render : RenderFun) (s : ComposerState) (out : String)
    (fs : Fs) : Fs :=
  applyUpdates
    ((out, .dir)
      :: (generateEntries render s).map (fun e => (out ++ "/" ++ e.1, e.2)))
    fs

/-- C8: for every complete state and every rendering function, one run
produces exactly six artifacts at the output location when no tool is
selected (the nodes subdirectory plus the five core files, the tool manifest
omitted) and exactly seven when at least one tool is selected; the file names
are fixed. -/
theorem generate_artifact_count :
    ∀ (render : RenderFun) (s : ComposerState),
      s.is_complete = true →
      (generateEntries render s).length
        = (if s.selected_tools = [] then 6 else 7)
      ∧ (generateFiles render s).map (fun pc => pc.1)
        = ["__init__.py", "__main__.py", "agent.py", "config.py",
           "nodes/__init__.py"]
          ++ (if s.selected_tools = [] then [] else ["mcp_servers.json"]) := by
  intro render s _
  by_cases h : s.selected_tools = [] <;>
    simp [generateEntries, generateFiles, h]

/-- The example graph of the specification: agent simple_support_agent with
one goal, nodes intake and response joined by an on-success edge, entry node
intake. -/
def exampleState : ComposerState :=
  { agent_name := "simple_support_agent",
    agent_description := "A basic customer support agent",
    goal := some { id := "support_goal", name := "Customer Support Goal",
                   description := "Provide helpful responses",
                   success_criteria := ["response_quality"] },
    nodes := [{ id := "intake", name := "Customer Intake" },
              { id := "response", name := "Response Generator" }],
    edges := [{ source := "intake", target := "response",
                condition := .on_success }],
    entry_node := some "intake",
    terminal_nodes := ["response"] }

/-- The example graph with one selected tool. -/
def exampleStateTool : ComposerState :=
  { exampleState with selected_tools := ["web_search"] }

/-- C8 (witness): the artifact counts at the example graph, with and without
a selected tool, under a concrete rendering function. -/
theorem generate_artifact_count_witness :
    exampleState.is_complete = true
    ∧ (generateEntries (fun nm _ => nm) exampleState).length = 6
    ∧ exampleStateTool.is_complete = true
    ∧ (generateEntries (fun nm _ => nm) exampleStateTool).length = 7 := by
  have h1 := generate_artifact_count (fun nm _ => nm) exampleState (by decide)
  have h2 := generate_artifact_count (fun nm _ => nm) exampleStateTool
    (by decide)
  exact ⟨by decide, h1.1.trans (by decide), by decide, h2.1.trans (by decide)⟩

/-- C9: for every complete state, output location, rendering function and
starting filesystem, running the generator twice succeeds (it is a total
function) and leaves exactly the filesystem of the first run: directory
creation is idempotent and files are silently overwritten with identical
content, so nothing accumulates. -/
theorem generate_idempotent :
    ∀ (render : RenderFun) (s : ComposerState) (out : String) (fs : Fs),
      s.is_complete = true →
      runGenerate render s out (runGenerate render s out fs)
        = runGenerate render s out fs := by
  intro render s out fs _
  funext q
  unfold runGenerate
  rw [applyUpdates_apply, applyUpdates_apply]
  cases h : lastVal
      ((out, FsEntry.dir)
        :: (generateEntries render s).map (fun e => (out ++ "/" ++ e.1, e.2)))
      q with
  | some v => simp [h]
  | none => simp [h]

/-- C9 (witness): the idempotence theorem applied to the example graph, a
concrete rendering function, a concrete output location and the empty
filesystem. -/
theorem generate_idempotent_witness :
    exampleState.is_complete = true
    ∧ runGenerate (fun nm _ => nm) exampleState "out"
        (runGenerate (fun nm _ => nm) exampleState "out" (fun _ => none))
      = runGenerate (fun nm _ => nm) exampleState "out" (fun _ => none) :=
  ⟨by decide,
   generate_idempotent (fun nm _ => nm) exampleState "out" (fun _ => none)
     (by decide)⟩
